import Mathlib

/-!
# Verification of the token-based session authentication subsystem

Shallow embedding of the auth core of the golf-improver server:
`AuthService` (register / login / refreshToken / logout), the token
issuance helper `generateTokens`, and `TokenCleanupService`.

Modelling conventions:
* Time is a single `Nat` timeline in epoch seconds (the source mixes
  second-granularity JWT claims with millisecond `Date` objects related by
  the fixed `* 1000` conversion; one monotone timeline is equivalent).
* `Bun.password.hash` is a salted one-way hash whose salt is generated per
  call and embedded in the output; we model the output as the pair
  (salt, digest of the password under that salt), with an ideal
  (injective-in-inputs) digest, so `verify` recomputes under the embedded
  salt.  The per-call random salt is passed in explicitly.
* JWTs are kept structured (claims plus the signing secret standing for
  the HMAC); SHA-256 of the serialized token is an ideal tag over the
  serialization.  Random material (the 256-bit refresh payload, fresh row
  ids) is passed in explicitly.
* Store failures are injected through a `StoreFault` parameter naming the
  first store primitive call that throws during the operation;
  `StoreFault.noFault` is a normal run.  A JavaScript exception is either
  a typed `AuthError` (from `auth-errors.ts`) or a raw error.
-/

/-- A bcrypt-class password hash: the per-call salt embedded in the output
together with the digest of (salt, password).  With an ideal digest the
pair (salt, password) determines the output, so we keep the inputs. -/
structure PasswordHash where
  salt : String
  digest : String
  deriving Repr, DecidableEq

/-- Model of `Bun.password.hash(password)` with the per-call random salt made
explicit; the salt is embedded in the output. -/
def bunPasswordHash (password salt : String) : PasswordHash :=
  { salt := salt, digest := "bcrypt(" ++ salt ++ "," ++ password ++ ")" }

/-- Model of `Bun.password.verify(password, hash)`: recompute the digest under the
embedded salt and compare. -/
def bunPasswordVerify (password : String) (h : PasswordHash) : Bool :=
  h.digest == "bcrypt(" ++ h.salt ++ "," ++ password ++ ")"

/-- A row of the `users` table (`db/schema.ts`). -/
structure User where
  id : String
  firstName : String
  lastName : String
  email : String
  passwordHash : PasswordHash
  lastLoginAt : Option Nat
  createdAt : Nat
  deriving Repr, DecidableEq

/-- A row of the `refresh_tokens` table (`db/schema.ts`):
`tokenHash` is the SHA-256 hash of the serialized refresh token,
`revokedAt` is NULL (`none`) while the row is not revoked. -/
structure RefreshTokenRow where
  id : String
  userId : String
  tokenHash : String
  expiresAt : Nat
  createdAt : Nat
  revokedAt : Option Nat
  deriving Repr, DecidableEq

/-- The database state visible to this subsystem. -/
structure DB where
  users : List User
  refreshTokens : List RefreshTokenRow
  deriving Repr, DecidableEq

/-- The claims of the refresh JWT minted by `generateTokens`:
`{userId, payload, type: "refresh", exp, iat}` signed with the
process-wide secret (the secret stands for the HMAC signature). -/
structure RefreshJwt where
  userId : String
  payload : String
  type : String
  exp : Nat
  iat : Nat
  secret : String
  deriving Repr, DecidableEq

/-- The claims of the access JWT: `{userId, exp}` signed with the secret. -/
structure AccessJwt where
  userId : String
  exp : Nat
  secret : String
  deriving Repr, DecidableEq

/-- The serialized (signed, encoded) refresh token string. -/
def serializeRefreshJwt (t : RefreshJwt) : String :=
  "jwt(" ++ t.userId ++ "|" ++ t.payload ++ "|" ++ t.type ++ "|" ++
    toString t.exp ++ "|" ++ toString t.iat ++ "|" ++ t.secret ++ ")"

/-- Model of `createHash('sha256').update(s).digest('hex')` as an ideal hash. -/
def sha256 (s : String) : String :=
  "sha256(" ++ s ++ ")"

/-- The token hash persisted for a refresh token:
SHA-256 of its serialization. -/
def refreshTokenHash (t : RefreshJwt) : String :=
  sha256 (serializeRefreshJwt t)

/-- Model of `verify` from `hono/jwt` on a structured refresh token: signature
(secret) matches, the `exp` claim is not in the past, and the `iat`
claim is not in the future. -/
def jwtVerifyOk (t : RefreshJwt) (secret : String) (now : Nat) : Bool :=
  t.secret == secret && !(t.exp < now) && !(now < t.iat)

/-- The typed error classes of `api/auth-errors.ts` relevant here. -/
inductive AuthErrKind where
  | invalidCredentials
  | invalidRefreshToken
  | registrationFailed
  deriving Repr, DecidableEq

/-- An instance of an `AuthError` subclass: its class (for `instanceof`
tests), its wire `code`, and its `message`. -/
structure AuthErr where
  kind : AuthErrKind
  code : String
  message : String
  deriving Repr, DecidableEq

/-- Constructor `new InvalidCredentialsError(msg)` — code `invalid_credentials`. -/
def invalidCredentialsError (msg : String) : AuthErr :=
  { kind := .invalidCredentials, code := "invalid_credentials", message := msg }

/-- Constructor `new InvalidRefreshTokenError(msg)` — code `invalid_refresh_token`. -/
def invalidRefreshTokenError (msg : String) : AuthErr :=
  { kind := .invalidRefreshToken, code := "invalid_refresh_token", message := msg }

/-- Constructor `new RegistrationFailedError(msg)` — code `registration_failed`. -/
def registrationFailedError (msg : String) : AuthErr :=
  { kind := .registrationFailed, code := "registration_failed", message := msg }

/-- A thrown JavaScript value: a typed `AuthError`, or any other (raw)
exception such as a store/driver error or a plain `Error`. -/
inductive Thrown where
  | auth : AuthErr → Thrown
  | raw : String → Thrown
  deriving Repr, DecidableEq

/-- Fault injection: the store primitive whose first call during the
operation throws a raw error; `noFault` is a normal run. -/
inductive StoreFault where
  | noFault
  | usersFindFirst
  | usersInsert
  | usersUpdate
  | tokensFindFirst
  | tokensUpdate
  | tokensInsert
  deriving Repr, DecidableEq

namespace TokenCleanupService

/-- Method `cleanupExpiredTokens`: `DELETE FROM refresh_tokens WHERE expiresAt < now`
returning the deleted count and the new state. -/
def cleanupExpiredTokens (db : DB) (now : Nat) : Nat × DB :=
  let deleted := db.refreshTokens.filter (fun r => r.expiresAt < now)
  (deleted.length,
   { db with refreshTokens := db.refreshTokens.filter (fun r => !(r.expiresAt < now)) })

/-- Method `cleanupRevokedTokens`: `DELETE FROM refresh_tokens WHERE revokedAt IS
NOT NULL AND expiresAt < now` returning the deleted count and new state. -/
def cleanupRevokedTokens (db : DB) (now : Nat) : Nat × DB :=
  let deleted := db.refreshTokens.filter (fun r => r.revokedAt != none && r.expiresAt < now)
  (deleted.length,
   { db with refreshTokens :=
       db.refreshTokens.filter (fun r => !(r.revokedAt != none && r.expiresAt < now)) })

end TokenCleanupService

namespace AuthService

/-- The success payload of `generateTokens`. -/
structure TokenPair where
  access_token : AccessJwt
  refresh_token : RefreshJwt
  expires_in : Nat
  token_type : String
  deriving Repr, DecidableEq

/-- The public user fields returned by register/login. -/
structure PublicUser where
  id : String
  email : String
  first_name : String
  last_name : String
  deriving Repr, DecidableEq

/-- The success payload of register/login: tokens plus public user. -/
structure AuthResult where
  tokens : TokenPair
  user : PublicUser
  deriving Repr, DecidableEq

/-- The success payload of `logout`. -/
structure LogoutResult where
  message : String
  deriving Repr, DecidableEq

/-- Method `AuthService.generateTokens(userId)`: reads `JWT_SECRET` (throwing a
plain `Error` when unset), signs the access and refresh tokens, hashes the
serialized refresh token and inserts the row; the insert can fail (fault
injection or the UNIQUE index on `token_hash`), surfacing as a raw error. -/
def generateTokens (db : DB) (userId : String) (jwtSecret? : Option String)
    (now : Nat) (payloadRand newRowId : String) (fault : StoreFault) :
    Except Thrown TokenPair × DB :=
  match jwtSecret? with
  | none => (.error (.raw "JWT_SECRET environment variable is not set"), db)
  | some jwtSecret =>
    let accessToken : AccessJwt :=
      { userId := userId, exp := now + 60 * 60, secret := jwtSecret }
    let refreshTokenExp := now + 30 * 24 * 60 * 60
    let refreshTok : RefreshJwt :=
      { userId := userId, payload := payloadRand, type := "refresh",
        exp := refreshTokenExp, iat := now, secret := jwtSecret }
    let tokenHash := refreshTokenHash refreshTok
    if fault == .tokensInsert then
      (.error (.raw "refresh_tokens insert failed"), db)
    else if db.refreshTokens.any (fun r => r.tokenHash == tokenHash) then
      (.error (.raw "UNIQUE constraint failed: refresh_tokens.token_hash"), db)
    else
      let row : RefreshTokenRow :=
        { id := newRowId, userId := userId, tokenHash := tokenHash,
          expiresAt := refreshTokenExp, createdAt := now, revokedAt := none }
      (.ok { access_token := accessToken, refresh_token := refreshTok,
             expires_in := 3600, token_type := "Bearer" },
       { db with refreshTokens := db.refreshTokens ++ [row] })

/-- The input of `register`. -/
structure RegisterInput where
  email : String
  password : String
  firstName : String
  lastName : String
  deriving Repr, DecidableEq

/-- Method `AuthService.register`: look up the email; if taken, throw
`RegistrationFailedError` with a generic message; otherwise hash the
password, insert the user, issue tokens.  The surrounding
`try/catch` logs and rethrows the error unchanged. -/
def register (db : DB) (input : RegisterInput) (jwtSecret? : Option String)
    (now : Nat) (salt newUserId payloadRand newRowId : String)
    (fault : StoreFault) : Except Thrown AuthResult × DB :=
  if fault == .usersFindFirst then (.error (.raw "users query failed"), db)
  else
    match db.users.find? (fun u => u.email == input.email) with
    | some _ =>
        (.error (.auth (registrationFailedError
          "Registration failed. Please try again with different details.")), db)
    | none =>
      let passwordHash := bunPasswordHash input.password salt
      if fault == .usersInsert then (.error (.raw "users insert failed"), db)
      else
        let newUser : User :=
          { id := newUserId, firstName := input.firstName,
            lastName := input.lastName, email := input.email,
            passwordHash := passwordHash, lastLoginAt := none, createdAt := now }
        let db1 := { db with users := db.users ++ [newUser] }
        match generateTokens db1 newUser.id jwtSecret? now payloadRand newRowId fault with
        | (.ok tokens, db2) =>
            (.ok { tokens := tokens,
                   user := { id := newUser.id, email := newUser.email,
                             first_name := newUser.firstName,
                             last_name := newUser.lastName } }, db2)
        | (.error e, db2) => (.error e, db2)

/-- The input of `login`. -/
structure LoginInput where
  email : String
  password : String
  deriving Repr, DecidableEq

/-- The outcome of `login`: its result, the final store state, and the
trace of `(password, hash)` arguments passed to `Bun.password.verify`. -/
structure LoginOutcome where
  result : Except Thrown AuthResult
  db : DB
  verifyCalls : List (String × PasswordHash)
  deriving Repr

/-- Method `AuthService.login`: look up the user by email; verify the password
against the stored hash, or — when no user exists — against a hash of the
fixed dummy password computed in this call with a fresh salt
(`Bun.password.hash(dummyPassword)`); on failure throw
`InvalidCredentialsError`; on success set `lastLoginAt` and issue tokens.
There is no `try/catch`: store failures propagate raw. -/
def login (db : DB) (input : LoginInput) (jwtSecret? : Option String)
    (now : Nat) (dummySalt payloadRand newRowId : String)
    (fault : StoreFault) : LoginOutcome :=
  let dummyPassword := "dummy-password-for-timing-protection"
  if fault == .usersFindFirst then
    { result := .error (.raw "users query failed"), db := db, verifyCalls := [] }
  else
    let user? := db.users.find? (fun u => u.email == input.email)
    let passwordToVerify :=
      match user? with
      | some u => u.passwordHash
      | none => bunPasswordHash dummyPassword dummySalt
    let isValidPassword := bunPasswordVerify input.password passwordToVerify
    let calls := [(input.password, passwordToVerify)]
    match user? with
    | none =>
        { result := .error (.auth (invalidCredentialsError "Invalid email or password")),
          db := db, verifyCalls := calls }
    | some user =>
      if !isValidPassword then
        { result := .error (.auth (invalidCredentialsError "Invalid email or password")),
          db := db, verifyCalls := calls }
      else if fault == .usersUpdate then
        { result := .error (.raw "users update failed"), db := db, verifyCalls := calls }
      else
        let db1 := { db with users := db.users.map (fun u =>
          if u.id == user.id then { u with lastLoginAt := some now } else u) }
        match generateTokens db1 user.id jwtSecret? now payloadRand newRowId fault with
        | (.ok tokens, db2) =>
            let pub : PublicUser :=
              { id := user.id, email := user.email,
                first_name := user.firstName, last_name := user.lastName }
            { result := .ok { tokens := tokens, user := pub },
              db := db2, verifyCalls := calls }
        | (.error e, db2) =>
            { result := .error e, db := db2, verifyCalls := calls }

/-- The `findFirst` of `refreshToken`: the first row whose `tokenHash`
matches, whose `revokedAt` IS NULL and whose `expiresAt >= now`
(`gte(schema.refreshTokens.expiresAt, new Date())`). -/
def findActiveRow (db : DB) (tokenHash : String) (now : Nat) :
    Option RefreshTokenRow :=
  db.refreshTokens.find? (fun r =>
    r.tokenHash == tokenHash && r.revokedAt == none && decide (now ≤ r.expiresAt))

/-- The revoke step of `refreshToken`: `UPDATE refresh_tokens SET
revokedAt = now WHERE id = rowId` — unconditional on `revokedAt`, and the
affected-row count is not inspected. -/
def revokeRowById (db : DB) (rowId : String) (now : Nat) : DB :=
  { db with refreshTokens := db.refreshTokens.map (fun r =>
      if r.id == rowId then { r with revokedAt := some now } else r) }

/-- The tail of `refreshToken` after its `findFirst` returned `stored`:
revoke the row by id, then mint and persist the successor pair. -/
def refreshAfterFind (db : DB) (stored : RefreshTokenRow) (jwtSecret : String)
    (now : Nat) (payloadRand newRowId : String) (fault : StoreFault) :
    Except Thrown TokenPair × DB :=
  if fault == .tokensUpdate then (.error (.raw "refresh_tokens update failed"), db)
  else
    let db1 := revokeRowById db stored.id now
    generateTokens db1 stored.userId (some jwtSecret) now payloadRand newRowId fault

/-- The `catch` block shared in shape by `refreshToken` and `logout`:
an `InvalidRefreshTokenError` is rethrown unchanged; any other thrown
value is replaced by `new InvalidRefreshTokenError(msg)`. -/
def foldToInvalidRefreshRes {α : Type} (msg : String) :
    Except Thrown α → Except Thrown α
  | .ok v => .ok v
  | .error (.auth e) =>
      if e.kind == .invalidRefreshToken then .error (.auth e)
      else .error (.auth (invalidRefreshTokenError msg))
  | .error (.raw _) => .error (.auth (invalidRefreshTokenError msg))

/-- The `catch` applied to the outcome of a `try` body: the store state
reached inside the body persists (there is no transaction/rollback). -/
def foldToInvalidRefresh {α : Type} (msg : String)
    (out : Except Thrown α × DB) : Except Thrown α × DB :=
  (foldToInvalidRefreshRes msg out.1, out.2)

/-- Method `AuthService.refreshToken`: read `JWT_SECRET` (a missing secret throws
a plain `Error` before the `try`, so it propagates raw); inside the `try`,
verify the JWT (signature/exp/iat), check `type == "refresh"`, `findFirst`
the matching non-revoked non-expired row, then revoke it by id and issue a
successor pair; the `catch` folds everything but `InvalidRefreshTokenError`
into `InvalidRefreshTokenError("Refresh token is invalid or expired")`. -/
def refreshToken (db : DB) (presented : RefreshJwt) (jwtSecret? : Option String)
    (now : Nat) (payloadRand newRowId : String) (fault : StoreFault) :
    Except Thrown TokenPair × DB :=
  match jwtSecret? with
  | none => (.error (.raw "JWT_SECRET environment variable is not set"), db)
  | some jwtSecret =>
    foldToInvalidRefresh "Refresh token is invalid or expired" (
      if !(jwtVerifyOk presented jwtSecret now) then
        (.error (.raw "jwt verification failed"), db)
      else if presented.type != "refresh" then
        (.error (.auth (invalidRefreshTokenError "Invalid token type")), db)
      else if fault == .tokensFindFirst then
        (.error (.raw "refresh_tokens query failed"), db)
      else
        match findActiveRow db (refreshTokenHash presented) now with
        | none =>
            (.error (.auth (invalidRefreshTokenError
              "Refresh token is invalid or expired")), db)
        | some stored =>
            refreshAfterFind db stored jwtSecret now payloadRand newRowId fault)

/-- Method `AuthService.logout`: hash the presented string, run
`UPDATE refresh_tokens SET revokedAt = now WHERE tokenHash = ? AND
revokedAt IS NULL` with `returning()`, and throw
`InvalidRefreshTokenError` when zero rows were affected; the `catch`
folds other failures into the same error.  Expiry is not consulted. -/
def logout (db : DB) (refresh_token : String) (now : Nat)
    (fault : StoreFault) : Except Thrown LogoutResult × DB :=
  foldToInvalidRefresh "Token is invalid or already expired" (
    let tokenHash := sha256 refresh_token
    if fault == .tokensUpdate then
      (.error (.raw "refresh_tokens update failed"), db)
    else
      let affected := db.refreshTokens.filter (fun r =>
        r.tokenHash == tokenHash && r.revokedAt == none)
      let db1 := { db with refreshTokens := db.refreshTokens.map (fun r =>
        if r.tokenHash == tokenHash && r.revokedAt == none
        then { r with revokedAt := some now } else r) }
      if affected.length == 0 then
        (.error (.auth (invalidRefreshTokenError
          "Token is invalid or already expired")), db1)
      else
        (.ok { message := "Successfully logged out" }, db1))

end AuthService

/-- The atomic "revoke iff currently active" primitive as the spec's §5
words describe it, for comparison with the code's find-then-update in
`refreshToken`: one conditional update
`SET revokedAt = now WHERE tokenHash = ? AND revokedAt IS NULL`,
returning the affected-row count to be checked by the caller. -/
def revokeIfActiveCAS (db : DB) (tokenHash : String) (now : Nat) : Nat × DB :=
  let affected := db.refreshTokens.filter (fun r =>
    r.tokenHash == tokenHash && r.revokedAt == none)
  (affected.length,
   { db with refreshTokens := db.refreshTokens.map (fun r =>
       if r.tokenHash == tokenHash && r.revokedAt == none
       then { r with revokedAt := some now } else r) })

/-- C9: The cleanup jobs never delete an active row — every row with
`revokedAt` NULL and `expiresAt` later than the current time is still
present, unmodified, after `cleanupExpiredTokens` and after
`cleanupRevokedTokens`. -/
theorem C9_cleanup_never_deletes_active (db : DB) (now : Nat)
    (r : RefreshTokenRow)
    (hmem : r ∈ db.refreshTokens) (hrev : r.revokedAt = none)
    (hexp : now < r.expiresAt) :
    r ∈ (TokenCleanupService.cleanupExpiredTokens db now).2.refreshTokens ∧
    r ∈ (TokenCleanupService.cleanupRevokedTokens db now).2.refreshTokens := by
  constructor
  · simp only [TokenCleanupService.cleanupExpiredTokens, List.mem_filter]
    exact ⟨hmem, by simp [Nat.not_lt_of_gt hexp]⟩
  · simp only [TokenCleanupService.cleanupRevokedTokens, List.mem_filter]
    exact ⟨hmem, by simp [hrev]⟩

/-- C9 witness: the theorem applied at a concrete one-row store. -/
theorem C9_cleanup_never_deletes_active_witness :
    let r : RefreshTokenRow :=
      { id := "r1", userId := "u1", tokenHash := "h1",
        expiresAt := 100, createdAt := 0, revokedAt := none }
    let db : DB := { users := [], refreshTokens := [r] }
    r ∈ (TokenCleanupService.cleanupExpiredTokens db 50).2.refreshTokens ∧
    r ∈ (TokenCleanupService.cleanupRevokedTokens db 50).2.refreshTokens :=
  C9_cleanup_never_deletes_active _ 50 _ (by simp) rfl (by decide)

section HelperLemmas

open AuthService

/-- The catch fold turns every error into (or keeps) an
`InvalidRefreshTokenError`-kind error. -/
theorem foldToInvalidRefreshRes_error_inv {α : Type} (msg : String)
    (r : Except Thrown α) (e : Thrown)
    (h : foldToInvalidRefreshRes msg r = .error e) :
    ∃ a : AuthErr, e = .auth a ∧ a.kind = .invalidRefreshToken := by
  match r with
  | .ok v => simp [foldToInvalidRefreshRes] at h
  | .error (.auth a) =>
      by_cases hk : a.kind = .invalidRefreshToken
      · refine ⟨a, ?_, hk⟩
        simp [foldToInvalidRefreshRes, hk] at h
        exact h.symm
      · refine ⟨invalidRefreshTokenError msg, ?_, rfl⟩
        simp [foldToInvalidRefreshRes, hk] at h
        exact h.symm
  | .error (.raw s) =>
      refine ⟨invalidRefreshTokenError msg, ?_, rfl⟩
      simp [foldToInvalidRefreshRes] at h
      exact h.symm

/-- The catch fold is the identity on successes, and a success out of the
fold can only come from a success inside the `try`. -/
theorem foldToInvalidRefreshRes_ok_inv {α : Type} (msg : String)
    (r : Except Thrown α) (v : α)
    (h : foldToInvalidRefreshRes msg r = .ok v) :
    r = .ok v := by
  match r with
  | .ok w => simpa [foldToInvalidRefreshRes] using h
  | .error (.auth a) =>
      by_cases hk : a.kind = .invalidRefreshToken <;>
        simp [foldToInvalidRefreshRes, hk] at h
  | .error (.raw s) => simp [foldToInvalidRefreshRes] at h

/-- Helper `generateTokens` only ever throws raw (untyped) errors. -/
theorem generateTokens_error_raw (db : DB) (userId : String)
    (jwtSecret? : Option String) (now : Nat) (payloadRand newRowId : String)
    (fault : StoreFault) (e : Thrown) (db' : DB)
    (h : generateTokens db userId jwtSecret? now payloadRand newRowId fault =
      (.error e, db')) :
    (∃ s, e = .raw s) ∧ db' = db := by
  rcases jwtSecret? with _ | secret
  · simp only [generateTokens] at h
    cases h
    exact ⟨⟨_, rfl⟩, rfl⟩
  · simp only [generateTokens] at h
    by_cases hf : fault == StoreFault.tokensInsert
    · rw [if_pos hf] at h
      cases h
      exact ⟨⟨_, rfl⟩, rfl⟩
    · rw [if_neg hf] at h
      by_cases hc : db.refreshTokens.any (fun r =>
          r.tokenHash == refreshTokenHash
            { userId := userId, payload := payloadRand, type := "refresh",
              exp := now + 30 * 24 * 60 * 60, iat := now, secret := secret })
      · rw [if_pos hc] at h
        cases h
        exact ⟨⟨_, rfl⟩, rfl⟩
      · rw [if_neg hc] at h
        cases h

end HelperLemmas

/-- C8: When the email of a `register` call already belongs to an existing
user, the call fails with `RegistrationFailedError` carrying the generic
message, and the store is returned unchanged: no user row and no refresh
token row is created. -/
theorem C8_register_existing_email_fails_store_unchanged
    (db : DB) (input : AuthService.RegisterInput) (jwtSecret? : Option String)
    (now : Nat) (salt newUserId payloadRand newRowId : String)
    (u : User) (hu : u ∈ db.users) (he : u.email = input.email) :
    AuthService.register db input jwtSecret? now salt newUserId payloadRand newRowId
        .noFault =
      (.error (.auth (registrationFailedError
        "Registration failed. Please try again with different details.")), db) := by
  have hsome : (db.users.find? (fun v => v.email == input.email)).isSome := by
    rw [List.find?_isSome]
    exact ⟨u, hu, by simp [he]⟩
  obtain ⟨v, hv⟩ := Option.isSome_iff_exists.mp hsome
  simp [AuthService.register, hv]

/-- C8 witness: a concrete one-user store and a registration with the
same email. -/
theorem C8_register_existing_email_fails_store_unchanged_witness :
    (let u : User :=
      { id := "u1", firstName := "Ann", lastName := "A", email := "a@x.com",
        passwordHash := bunPasswordHash "pw" "s0", lastLoginAt := none, createdAt := 0 }
     let db : DB := { users := [u], refreshTokens := [] }
     let input : AuthService.RegisterInput :=
      { email := "a@x.com", password := "pw2", firstName := "Bob", lastName := "B" }
     AuthService.register db input (some "sec") 5 "s1" "u2" "p" "r1" .noFault =
      (.error (.auth (registrationFailedError
        "Registration failed. Please try again with different details.")), db)) :=
  C8_register_existing_email_fails_store_unchanged _ _ _ _ _ _ _ _ _
    (List.mem_singleton.mpr rfl) rfl

open AuthService

/-- If the `findFirst` of `refreshToken` finds no matching active row, the
call fails with the generic `InvalidRefreshTokenError` and leaves the
store unchanged (shared helper; covers both JWT-verification outcomes
when the type claim is `"refresh"`). -/
theorem refreshToken_error_of_find_none (db : DB) (t : RefreshJwt)
    (secret : String) (now : Nat) (payloadRand newRowId : String)
    (htype : t.type = "refresh")
    (hfind : findActiveRow db (refreshTokenHash t) now = none) :
    AuthService.refreshToken db t (some secret) now payloadRand newRowId .noFault =
      (.error (.auth (invalidRefreshTokenError
        "Refresh token is invalid or expired")), db) := by
  by_cases hj : jwtVerifyOk t secret now
  · simp [AuthService.refreshToken, foldToInvalidRefresh, foldToInvalidRefreshRes,
      hj, htype, hfind, invalidRefreshTokenError]
  · simp only [Bool.not_eq_true] at hj
    simp [AuthService.refreshToken, foldToInvalidRefresh, foldToInvalidRefreshRes,
      hj, invalidRefreshTokenError]

/-- C4: Failure responses do not leak the sub-reason.  Every fault-free
`login` that fails because the email is unknown, and every one that fails
because the password is wrong, returns the identical
`InvalidCredentialsError("Invalid email or password")`; every fault-free
`refreshToken` whose row lookup finds nothing (not found, already
revoked, or expired) returns the identical
`InvalidRefreshTokenError("Refresh token is invalid or expired")`; and
every failing fault-free `logout` returns the identical
`InvalidRefreshTokenError("Token is invalid or already expired")`. -/
theorem C4_failure_responses_do_not_distinguish :
    (∀ (db : DB) (input : AuthService.LoginInput) (jwtSecret? : Option String)
        (now : Nat) (dummySalt payloadRand newRowId : String),
        db.users.find? (fun u => u.email == input.email) = none →
        (AuthService.login db input jwtSecret? now dummySalt payloadRand newRowId
          .noFault).result =
          .error (.auth (invalidCredentialsError "Invalid email or password"))) ∧
    (∀ (db : DB) (input : AuthService.LoginInput) (jwtSecret? : Option String)
        (now : Nat) (dummySalt payloadRand newRowId : String) (u : User),
        db.users.find? (fun v => v.email == input.email) = some u →
        bunPasswordVerify input.password u.passwordHash = false →
        (AuthService.login db input jwtSecret? now dummySalt payloadRand newRowId
          .noFault).result =
          .error (.auth (invalidCredentialsError "Invalid email or password"))) ∧
    (∀ (db : DB) (t : RefreshJwt) (secret : String) (now : Nat)
        (payloadRand newRowId : String),
        t.type = "refresh" →
        findActiveRow db (refreshTokenHash t) now = none →
        (AuthService.refreshToken db t (some secret) now payloadRand newRowId
          .noFault).1 =
          .error (.auth (invalidRefreshTokenError
            "Refresh token is invalid or expired"))) ∧
    (∀ (db : DB) (s : String) (now : Nat) (e : Thrown),
        (AuthService.logout db s now .noFault).1 = .error e →
        e = .auth (invalidRefreshTokenError "Token is invalid or already expired")) := by
  refine ⟨?_, ?_, ?_, ?_⟩
  · intro db input js now ds pr rid hfind
    simp [AuthService.login, hfind]
  · intro db input js now ds pr rid u hfind hvf
    simp [AuthService.login, hfind, hvf]
  · intro db t secret now pr rid htype hfind
    rw [refreshToken_error_of_find_none db t secret now pr rid htype hfind]
  · intro db s now e h
    by_cases hl :
        (db.refreshTokens.filter (fun r =>
          r.tokenHash == sha256 s && r.revokedAt == none)).length = 0
    · simp [AuthService.logout, foldToInvalidRefresh, foldToInvalidRefreshRes,
        hl, invalidRefreshTokenError] at h
      simp [invalidRefreshTokenError, h]
    · simp [AuthService.logout, foldToInvalidRefresh, foldToInvalidRefreshRes,
        hl] at h

/-- C4 witness: the four parts applied at concrete calls — an unknown
email, a known email with a wrong password, a refresh against an empty
store, and a logout against an empty store. -/
theorem C4_failure_responses_do_not_distinguish_witness :
    (let uA : User :=
      { id := "u1", firstName := "Ann", lastName := "A", email := "a@x.com",
        passwordHash := bunPasswordHash "Aa1!aaaa" "s0",
        lastLoginAt := none, createdAt := 0 }
     let dbA : DB := { users := [uA], refreshTokens := [] }
     let t0 : RefreshJwt :=
      { userId := "u1", payload := "p0", type := "refresh",
        exp := 9999, iat := 0, secret := "sec" }
     (AuthService.login { users := [], refreshTokens := [] }
        { email := "unknown@x.com", password := "anything" }
        (some "sec") 0 "ds" "p" "r" .noFault).result =
        .error (.auth (invalidCredentialsError "Invalid email or password")) ∧
     (AuthService.login dbA
        { email := "a@x.com", password := "wrongpassword" }
        (some "sec") 0 "ds" "p" "r" .noFault).result =
        .error (.auth (invalidCredentialsError "Invalid email or password")) ∧
     (AuthService.refreshToken { users := [], refreshTokens := [] } t0
        (some "sec") 0 "p" "r" .noFault).1 =
        .error (.auth (invalidRefreshTokenError
          "Refresh token is invalid or expired")) ∧
     (.auth (invalidRefreshTokenError "Token is invalid or already expired") : Thrown) =
        .auth (invalidRefreshTokenError "Token is invalid or already expired")) :=
  ⟨C4_failure_responses_do_not_distinguish.1 _ _ _ _ _ _ _ (by decide),
   C4_failure_responses_do_not_distinguish.2.1 _ _ _ _ _ _ _
     { id := "u1", firstName := "Ann", lastName := "A", email := "a@x.com",
       passwordHash := bunPasswordHash "Aa1!aaaa" "s0",
       lastLoginAt := none, createdAt := 0 }
     (by decide) (by decide),
   C4_failure_responses_do_not_distinguish.2.2.1 _ _ _ _ _ _ rfl (by decide),
   C4_failure_responses_do_not_distinguish.2.2.2
     { users := [], refreshTokens := [] } "x" 0 _ rfl⟩

/-- C3 counterexample: the hash that `login` passes to
`Bun.password.verify` when no user matches is computed freshly in each
call (a salted hash of the fixed dummy password), so two calls on the
same unknown email pass different hash values to the verifier — there is
no "one fixed dummy hash" shared across calls. -/
theorem C3_counterexample_dummy_hash_not_fixed :
    (AuthService.login { users := [], refreshTokens := [] }
       { email := "unknown@x.com", password := "anything" }
       (some "sec") 0 "saltA" "p" "r" .noFault).verifyCalls ≠
    (AuthService.login { users := [], refreshTokens := [] }
       { email := "unknown@x.com", password := "anything" }
       (some "sec") 0 "saltB" "p" "r" .noFault).verifyCalls := by
  decide

/-- C3 as amended: every fault-free `login` invokes password verification
exactly once — with the stored user's `passwordHash` when a user with the
email exists, and with a hash of the fixed dummy password computed
freshly in that call (per-call salt) when no such user exists. -/
theorem C3_amended_login_always_verifies_once (db : DB)
    (input : AuthService.LoginInput) (jwtSecret? : Option String) (now : Nat)
    (dummySalt payloadRand newRowId : String) :
    (AuthService.login db input jwtSecret? now dummySalt payloadRand newRowId
      .noFault).verifyCalls =
      [(input.password,
        match db.users.find? (fun u => u.email == input.email) with
        | some u => u.passwordHash
        | none => bunPasswordHash "dummy-password-for-timing-protection" dummySalt)] := by
  cases hfind : db.users.find? (fun u => u.email == input.email) with
  | none => simp [AuthService.login, hfind]
  | some u =>
      by_cases hv : bunPasswordVerify input.password u.passwordHash = true
      · simp only [AuthService.login, hfind, hv]
        simp
        split <;> simp
      · simp only [Bool.not_eq_true] at hv
        simp [AuthService.login, hfind, hv]

/-- C5 counterexample: with the row's `expiresAt` exactly equal to the
current time (and `revokedAt` NULL), `refreshToken` succeeds — the code
uses `gte(expiresAt, now)` — although no stored row has `expiresAt`
strictly later than the current time, contradicting the claim's
"strictly later" activity condition. -/
theorem C5_counterexample_boundary_expiry :
    (let t0 : RefreshJwt :=
      { userId := "u1", payload := "p0", type := "refresh",
        exp := 5000, iat := 0, secret := "sec" }
     let row : RefreshTokenRow :=
      { id := "r1", userId := "u1", tokenHash := refreshTokenHash t0,
        expiresAt := 1000, createdAt := 0, revokedAt := none }
     let db : DB := { users := [], refreshTokens := [row] }
     jwtVerifyOk t0 "sec" 1000 = true ∧ t0.type = "refresh" ∧
     (AuthService.refreshToken db t0 (some "sec") 1000 "p1" "r2" .noFault).1.isOk
       = true ∧
     ¬ ∃ r ∈ db.refreshTokens,
         r.tokenHash = refreshTokenHash t0 ∧ r.revokedAt = none ∧
         1000 < r.expiresAt) := by
  refine ⟨rfl, rfl, by decide, by decide⟩

/-- C5 as amended: a `refreshToken` call that passes the JWT checks
returns a successor pair only if a stored row exists whose `tokenHash`
matches, whose `revokedAt` is NULL and whose `expiresAt` is at or later
than the current time (`>=`, not strictly later); when no such row
exists the call fails with `InvalidRefreshTokenError`. -/
theorem C5_amended_refresh_requires_active_row (db : DB) (t : RefreshJwt)
    (secret : String) (now : Nat) (payloadRand newRowId : String)
    (hjwt : jwtVerifyOk t secret now = true) (htype : t.type = "refresh") :
    ((AuthService.refreshToken db t (some secret) now payloadRand newRowId
        .noFault).1.isOk = true →
      ∃ r ∈ db.refreshTokens,
        r.tokenHash = refreshTokenHash t ∧ r.revokedAt = none ∧
        now ≤ r.expiresAt) ∧
    (findActiveRow db (refreshTokenHash t) now = none →
      (AuthService.refreshToken db t (some secret) now payloadRand newRowId
        .noFault).1 =
        .error (.auth (invalidRefreshTokenError
          "Refresh token is invalid or expired"))) := by
  constructor
  · intro hok
    cases hfind : findActiveRow db (refreshTokenHash t) now with
    | none =>
        rw [refreshToken_error_of_find_none db t secret now payloadRand newRowId
          htype hfind] at hok
        simp [Except.isOk, Except.toBool] at hok
    | some stored =>
        have hfind' : db.refreshTokens.find? (fun r =>
            r.tokenHash == refreshTokenHash t && r.revokedAt == none &&
              decide (now ≤ r.expiresAt)) = some stored := hfind
        have hmem := List.mem_of_find?_eq_some hfind'
        have hpred := List.find?_some hfind'
        simp only [Bool.and_eq_true, beq_iff_eq, decide_eq_true_eq] at hpred
        exact ⟨stored, hmem, hpred.1.1, hpred.1.2, hpred.2⟩
  · intro hfind
    exact congrArg Prod.fst
      (refreshToken_error_of_find_none db t secret now payloadRand newRowId
        htype hfind)

/-- C5 amended witness: the success direction at a store whose row
expires exactly now, and the failure direction at an empty store. -/
theorem C5_amended_refresh_requires_active_row_witness :
    (let t0 : RefreshJwt :=
      { userId := "u1", payload := "p0", type := "refresh",
        exp := 5000, iat := 0, secret := "sec" }
     let row : RefreshTokenRow :=
      { id := "r1", userId := "u1", tokenHash := refreshTokenHash t0,
        expiresAt := 1000, createdAt := 0, revokedAt := none }
     (∃ r ∈ ({ users := [], refreshTokens := [row] } : DB).refreshTokens,
        r.tokenHash = refreshTokenHash t0 ∧ r.revokedAt = none ∧
        (1000 : Nat) ≤ r.expiresAt) ∧
     (AuthService.refreshToken { users := [], refreshTokens := [] } t0
        (some "sec") 1000 "p1" "r2" .noFault).1 =
        .error (.auth (invalidRefreshTokenError
          "Refresh token is invalid or expired"))) :=
  ⟨(C5_amended_refresh_requires_active_row _ _ "sec" 1000 "p1" "r2"
      (by decide) rfl).1 (by decide),
   (C5_amended_refresh_requires_active_row _ _ "sec" 1000 "p1" "r2"
      (by decide) rfl).2 (by decide)⟩

/-- C6 counterexample: `logout` of a token whose row is already expired
(`expiresAt` in the past) but not revoked *succeeds* with the
acknowledgement message — the conditional update checks only `tokenHash`
and `revokedAt IS NULL`, never `expiresAt` — although no row is active in
the claim's sense. -/
theorem C6_counterexample_logout_expired_row_succeeds :
    (let row : RefreshTokenRow :=
      { id := "r1", userId := "u1", tokenHash := sha256 "tok0",
        expiresAt := 5, createdAt := 0, revokedAt := none }
     let db : DB := { users := [], refreshTokens := [row] }
     (AuthService.logout db "tok0" 100 .noFault).1 =
       .ok { message := "Successfully logged out" } ∧
     ¬ ∃ r ∈ db.refreshTokens,
         r.tokenHash = sha256 "tok0" ∧ r.revokedAt = none ∧
         100 < r.expiresAt) :=
  ⟨rfl, by decide⟩

/-- C6 as amended: `logout` atomically revokes the matching *non-revoked*
row regardless of expiry: when some row matches the token hash with
`revokedAt` NULL, it succeeds with the acknowledgement and every matching
row of the resulting store is revoked; when no such row exists it fails
with `InvalidRefreshTokenError` and leaves the store unchanged. -/
theorem C6_amended_logout_revokes_matching_ignoring_expiry
    (db : DB) (s : String) (now : Nat) :
    ((∃ r ∈ db.refreshTokens, r.tokenHash = sha256 s ∧ r.revokedAt = none) →
      (AuthService.logout db s now .noFault).1 =
        .ok { message := "Successfully logged out" } ∧
      ∀ r ∈ (AuthService.logout db s now .noFault).2.refreshTokens,
        r.tokenHash = sha256 s → r.revokedAt ≠ none) ∧
    ((∀ r ∈ db.refreshTokens, ¬(r.tokenHash = sha256 s ∧ r.revokedAt = none)) →
      AuthService.logout db s now .noFault =
        (.error (.auth (invalidRefreshTokenError
          "Token is invalid or already expired")), db)) := by
  constructor
  · rintro ⟨r0, hr0, hh, hrev⟩
    have hfilter : r0 ∈ db.refreshTokens.filter (fun r =>
        r.tokenHash == sha256 s && r.revokedAt == none) := by
      rw [List.mem_filter]
      exact ⟨hr0, by simp [hh, hrev]⟩
    have hlen : ¬ (db.refreshTokens.filter (fun r =>
        r.tokenHash == sha256 s && r.revokedAt == none)).length = 0 := by
      intro h0
      rw [List.length_eq_zero] at h0
      rw [h0] at hfilter
      exact List.not_mem_nil _ hfilter
    constructor
    · simp [AuthService.logout, foldToInvalidRefresh, foldToInvalidRefreshRes, hlen]
    · intro r hr hhash
      have hmem : r ∈ db.refreshTokens.map (fun x =>
          if x.tokenHash == sha256 s && x.revokedAt == none
          then { x with revokedAt := some now } else x) := by
        simpa [AuthService.logout, foldToInvalidRefresh, foldToInvalidRefreshRes,
          hlen] using hr
      rw [List.mem_map] at hmem
      obtain ⟨x, hx, hxr⟩ := hmem
      by_cases hc : x.tokenHash = sha256 s ∧ x.revokedAt = none
      · rw [← hxr]
        simp [hc.1, hc.2]
      · have : r = x := by
          rw [← hxr]
          rw [if_neg (by simpa using hc)]
        subst this
        intro hrev'
        exact hc ⟨hhash, hrev'⟩
  · intro hall
    have hlen : (db.refreshTokens.filter (fun r =>
        r.tokenHash == sha256 s && r.revokedAt == none)).length = 0 := by
      rw [List.length_eq_zero, List.filter_eq_nil_iff]
      intro r hr
      have := hall r hr
      simp only [Bool.and_eq_true, beq_iff_eq]
      intro hcon
      exact this ⟨hcon.1, hcon.2⟩
    have hmapProp : ∀ l : List RefreshTokenRow,
        (∀ r ∈ l, ¬(r.tokenHash = sha256 s ∧ r.revokedAt = none)) →
        l.map (fun r => if r.tokenHash = sha256 s ∧ r.revokedAt = none
          then { r with revokedAt := some now } else r) = l := by
      intro l
      induction l with
      | nil => intro _; rfl
      | cons x xs ih =>
          intro hl
          rw [List.map_cons, if_neg (hl x (List.mem_cons_self _ _)),
            ih (fun r hr => hl r (List.mem_cons_of_mem _ hr))]
    simp [AuthService.logout, foldToInvalidRefresh, foldToInvalidRefreshRes,
      hlen, hmapProp db.refreshTokens hall, invalidRefreshTokenError]

/-- C6 amended witness: the success direction on a one-row store (with an
already-expired row) and the failure direction on the empty store. -/
theorem C6_amended_logout_revokes_matching_ignoring_expiry_witness :
    (let row : RefreshTokenRow :=
      { id := "r1", userId := "u1", tokenHash := sha256 "tok0",
        expiresAt := 5, createdAt := 0, revokedAt := none }
     let db : DB := { users := [], refreshTokens := [row] }
     ((AuthService.logout db "tok0" 100 .noFault).1 =
        .ok { message := "Successfully logged out" } ∧
      ∀ r ∈ (AuthService.logout db "tok0" 100 .noFault).2.refreshTokens,
        r.tokenHash = sha256 "tok0" → r.revokedAt ≠ none) ∧
     AuthService.logout { users := [], refreshTokens := [] } "tok0" 100 .noFault =
       (.error (.auth (invalidRefreshTokenError
         "Token is invalid or already expired")),
        { users := [], refreshTokens := [] })) :=
  ⟨(C6_amended_logout_revokes_matching_ignoring_expiry _ "tok0" 100).1
     ⟨{ id := "r1", userId := "u1", tokenHash := sha256 "tok0",
        expiresAt := 5, createdAt := 0, revokedAt := none },
      by decide, rfl, rfl⟩,
   (C6_amended_logout_revokes_matching_ignoring_expiry _ "tok0" 100).2
     (by decide)⟩

/-- Inversion of a successful `refreshToken`: the JWT checks passed, the
type claim was `"refresh"`, the `findFirst` returned a stored row, and the
revoke-and-issue tail produced the pair and the final store. -/
theorem refreshToken_ok_inv (db : DB) (t : RefreshJwt) (secret : String)
    (now : Nat) (payloadRand newRowId : String) (pair : TokenPair) (db1 : DB)
    (h : AuthService.refreshToken db t (some secret) now payloadRand newRowId
      .noFault = (.ok pair, db1)) :
    jwtVerifyOk t secret now = true ∧ t.type = "refresh" ∧
      ∃ stored, findActiveRow db (refreshTokenHash t) now = some stored ∧
        refreshAfterFind db stored secret now payloadRand newRowId .noFault =
          (.ok pair, db1) := by
  by_cases hj : jwtVerifyOk t secret now = true
  case neg =>
    exfalso
    simp only [Bool.not_eq_true] at hj
    simp [AuthService.refreshToken, foldToInvalidRefresh,
      foldToInvalidRefreshRes, hj] at h
  case pos =>
    by_cases ht : t.type = "refresh"
    case neg =>
      exfalso
      simp [AuthService.refreshToken, foldToInvalidRefresh,
        foldToInvalidRefreshRes, hj, ht, invalidRefreshTokenError] at h
    case pos =>
      cases hfind : findActiveRow db (refreshTokenHash t) now with
      | none =>
          exfalso
          rw [refreshToken_error_of_find_none db t secret now payloadRand
            newRowId ht hfind] at h
          simp at h
      | some stored =>
          refine ⟨hj, ht, stored, rfl, ?_⟩
          have hbody : AuthService.refreshToken db t (some secret) now
              payloadRand newRowId .noFault =
              foldToInvalidRefresh "Refresh token is invalid or expired"
                (refreshAfterFind db stored secret now payloadRand newRowId
                  .noFault) := by
            simp [AuthService.refreshToken, hj, ht, hfind]
          rw [hbody] at h
          rcases hra : refreshAfterFind db stored secret now payloadRand
            newRowId .noFault with ⟨res, db2⟩
          rw [hra] at h
          have h1 : foldToInvalidRefreshRes "Refresh token is invalid or expired"
              res = .ok pair := congrArg Prod.fst h
          have h2 : db2 = db1 := congrArg Prod.snd h
          have hres := foldToInvalidRefreshRes_ok_inv _ res pair h1
          rw [hres, h2]

/-- Inversion of a successful `generateTokens`: the final store is the
input store plus exactly one appended refresh-token row whose hash was
not already present (the UNIQUE index admitted the insert). -/
theorem generateTokens_ok_state (db : DB) (userId secret : String)
    (now : Nat) (payloadRand newRowId : String) (pair : TokenPair) (db1 : DB)
    (h : generateTokens db userId (some secret) now payloadRand newRowId
      .noFault = (.ok pair, db1)) :
    ∃ newRow : RefreshTokenRow,
      db1.refreshTokens = db.refreshTokens ++ [newRow] ∧
      ∀ r ∈ db.refreshTokens, r.tokenHash ≠ newRow.tokenHash := by
  simp only [generateTokens] at h
  rw [if_neg (by decide)] at h
  by_cases hc : db.refreshTokens.any (fun r =>
      r.tokenHash == refreshTokenHash
        { userId := userId, payload := payloadRand, type := "refresh",
          exp := now + 30 * 24 * 60 * 60, iat := now, secret := secret }) = true
  · rw [if_pos hc] at h
    exact absurd h (by simp)
  · rw [if_neg hc] at h
    have hdb : db1.refreshTokens = db.refreshTokens ++
        [{ id := newRowId, userId := userId,
           tokenHash := refreshTokenHash
             { userId := userId, payload := payloadRand, type := "refresh",
               exp := now + 30 * 24 * 60 * 60, iat := now, secret := secret },
           expiresAt := now + 30 * 24 * 60 * 60, createdAt := now,
           revokedAt := none }] := by
      have h2 := congrArg Prod.snd h
      simp only at h2
      rw [← h2]
    refine ⟨_, hdb, ?_⟩
    intro r hr heq
    rw [Bool.not_eq_true, List.any_eq_false] at hc
    exact hc r hr (by simp [heq])

/-- Inversion of a successful revoke-and-issue tail of `refreshToken`:
the final store is the store with the consumed row revoked (by id) plus
one appended successor row with a fresh hash. -/
theorem refreshAfterFind_ok_state (db : DB) (stored : RefreshTokenRow)
    (secret : String) (now : Nat) (payloadRand newRowId : String)
    (pair : TokenPair) (db1 : DB)
    (h : refreshAfterFind db stored secret now payloadRand newRowId .noFault =
      (.ok pair, db1)) :
    ∃ newRow : RefreshTokenRow,
      db1.refreshTokens =
        (revokeRowById db stored.id now).refreshTokens ++ [newRow] ∧
      ∀ r ∈ (revokeRowById db stored.id now).refreshTokens,
        r.tokenHash ≠ newRow.tokenHash := by
  simp only [refreshAfterFind] at h
  rw [if_neg (by decide)] at h
  exact generateTokens_ok_state _ _ _ _ _ _ _ _ h

/-- C2: Rotation invalidates the predecessor.  If the store's token
hashes are unique (the UNIQUE index invariant) and a fault-free
`refreshToken(tokenA)` succeeds, then a second fault-free
`refreshToken(tokenA)` against the resulting store — at any later (or
any other) time — fails with the `invalid_refresh_token` error. -/
theorem C2_rotation_invalidates_predecessor (db : DB) (tA : RefreshJwt)
    (secret : String) (now1 : Nat) (payloadRand newRowId : String)
    (pair : TokenPair) (db1 : DB)
    (huniq : ∀ a ∈ db.refreshTokens, ∀ b ∈ db.refreshTokens,
      a.tokenHash = b.tokenHash → a = b)
    (h : AuthService.refreshToken db tA (some secret) now1 payloadRand newRowId
      .noFault = (.ok pair, db1))
    (now2 : Nat) (payloadRand2 newRowId2 : String) :
    (AuthService.refreshToken db1 tA (some secret) now2 payloadRand2 newRowId2
      .noFault).1 =
      .error (.auth (invalidRefreshTokenError
        "Refresh token is invalid or expired")) := by
  obtain ⟨hj, ht, stored, hfind, hra⟩ :=
    refreshToken_ok_inv db tA secret now1 payloadRand newRowId pair db1 h
  have hfind' : db.refreshTokens.find? (fun r =>
      r.tokenHash == refreshTokenHash tA && r.revokedAt == none &&
        decide (now1 ≤ r.expiresAt)) = some stored := hfind
  have hmem := List.mem_of_find?_eq_some hfind'
  have hpred := List.find?_some hfind'
  simp only [Bool.and_eq_true, beq_iff_eq, decide_eq_true_eq] at hpred
  obtain ⟨newRow, hdb1, hfresh⟩ :=
    refreshAfterFind_ok_state db stored secret now1 payloadRand newRowId pair
      db1 hra
  have hnone : findActiveRow db1 (refreshTokenHash tA) now2 = none := by
    unfold findActiveRow
    rw [List.find?_eq_none]
    intro r hr
    rw [hdb1, List.mem_append] at hr
    rcases hr with hr | hr
    · simp only [revokeRowById, List.mem_map] at hr
      obtain ⟨x, hx, hxr⟩ := hr
      intro hprd
      simp only [Bool.and_eq_true, beq_iff_eq, decide_eq_true_eq] at hprd
      by_cases hid : x.id = stored.id
      · rw [← hxr] at hprd
        simp [hid] at hprd
      · have hxhash : x.tokenHash = refreshTokenHash tA := by
          rw [← hxr] at hprd
          simpa [hid] using hprd.1.1
        exact hid (congrArg RefreshTokenRow.id
          (huniq x hx stored hmem (hxhash.trans hpred.1.1.symm)))
    · rw [List.mem_singleton] at hr
      subst hr
      intro hprd
      simp only [Bool.and_eq_true, beq_iff_eq, decide_eq_true_eq] at hprd
      have himg : ({ stored with revokedAt := some now1 } : RefreshTokenRow) ∈
          (revokeRowById db stored.id now1).refreshTokens := by
        simp only [revokeRowById, List.mem_map]
        exact ⟨stored, hmem, by simp⟩
      exact hfresh _ himg (by simpa using hpred.1.1.trans hprd.1.1.symm)
  exact congrArg Prod.fst (refreshToken_error_of_find_none db1 tA secret now2
    payloadRand2 newRowId2 ht hnone)

/-- C2 witness: a concrete rotation — the store holds one active row for
`tA`; the first refresh succeeds with the concrete successor pair and
store; the second refresh of `tA` against that store fails. -/
theorem C2_rotation_invalidates_predecessor_witness :
    (let tA : RefreshJwt :=
      { userId := "u1", payload := "p0", type := "refresh",
        exp := 9000, iat := 0, secret := "sec" }
     let db1 : DB := { users := [], refreshTokens :=
       [{ id := "r1", userId := "u1", tokenHash := refreshTokenHash tA,
          expiresAt := 9000, createdAt := 0, revokedAt := some 100 },
        { id := "r2", userId := "u1",
          tokenHash := refreshTokenHash
            { userId := "u1", payload := "p1", type := "refresh",
              exp := 100 + 30 * 24 * 60 * 60, iat := 100, secret := "sec" },
          expiresAt := 100 + 30 * 24 * 60 * 60, createdAt := 100,
          revokedAt := none }] }
     (AuthService.refreshToken db1 tA (some "sec") 200 "p2" "r3" .noFault).1 =
       .error (.auth (invalidRefreshTokenError
         "Refresh token is invalid or expired"))) :=
  C2_rotation_invalidates_predecessor
    { users := [], refreshTokens :=
      [{ id := "r1", userId := "u1",
         tokenHash := refreshTokenHash
           { userId := "u1", payload := "p0", type := "refresh",
             exp := 9000, iat := 0, secret := "sec" },
         expiresAt := 9000, createdAt := 0, revokedAt := none }] }
    { userId := "u1", payload := "p0", type := "refresh",
      exp := 9000, iat := 0, secret := "sec" }
    "sec" 100 "p1" "r2"
    { access_token := { userId := "u1", exp := 100 + 60 * 60, secret := "sec" },
      refresh_token :=
        { userId := "u1", payload := "p1", type := "refresh",
          exp := 100 + 30 * 24 * 60 * 60, iat := 100, secret := "sec" },
      expires_in := 3600, token_type := "Bearer" }
    _ (by decide) rfl 200 "p2" "r3"

/-- C1 counterexample: the code's Active-to-Revoked transition in
`refreshToken` is *not* a single conditional update with an affected-row
check; it is a `findFirst` followed by an unconditional update keyed by
the found row's id (`refreshToken = findActiveRow; refreshAfterFind`, and
the second conjunct below shows the full call *is* that composition).
Interleaving two calls on the same token — both reads before either
commit — lets both succeed: caller B's commit, run against the store
caller A left behind, still returns a successor pair, even though the
spec's conditional update for B would affect zero rows (last conjunct),
where the claim requires B to fail with `InvalidRefreshToken`. -/
theorem C1_counterexample_interleaved_refresh_both_succeed :
    (let tA : RefreshJwt :=
      { userId := "u1", payload := "p0", type := "refresh",
        exp := 9000, iat := 0, secret := "sec" }
     let row0 : RefreshTokenRow :=
      { id := "r1", userId := "u1", tokenHash := refreshTokenHash tA,
        expiresAt := 9000, createdAt := 0, revokedAt := none }
     let db0 : DB := { users := [], refreshTokens := [row0] }
     let afterA := refreshAfterFind db0 row0 "sec" 100 "pA" "rA" .noFault
     findActiveRow db0 (refreshTokenHash tA) 100 = some row0 ∧
     AuthService.refreshToken db0 tA (some "sec") 100 "pA" "rA" .noFault =
       afterA ∧
     afterA.1.isOk = true ∧
     (refreshAfterFind afterA.2 row0 "sec" 100 "pB" "rB" .noFault).1.isOk
       = true ∧
     (revokeIfActiveCAS afterA.2 (refreshTokenHash tA) 100).1 = 0) :=
  ⟨by decide, rfl, by decide, by decide, by decide⟩

/-- C1 as amended: in the code the Active-to-Revoked transition of the
consumed row is guarded by a prior `findFirst` (matching `tokenHash`,
`revokedAt` NULL, `expiresAt >= now`) and then performed as an
unconditional update keyed by the found row's id, with no affected-row
check; the call fails with `InvalidRefreshToken` exactly when that
`findFirst` returns no row, and on success the consumed row is revoked in
the final store.  The two steps are not one atomic conditional update, so
two interleaved calls can both obtain successor pairs. -/
theorem C1_amended_refresh_revoke_is_find_then_update (db : DB)
    (t : RefreshJwt) (secret : String) (now : Nat)
    (payloadRand newRowId : String)
    (hj : jwtVerifyOk t secret now = true) (ht : t.type = "refresh") :
    (findActiveRow db (refreshTokenHash t) now = none →
      AuthService.refreshToken db t (some secret) now payloadRand newRowId
        .noFault =
        (.error (.auth (invalidRefreshTokenError
          "Refresh token is invalid or expired")), db)) ∧
    (∀ stored pair db1,
      findActiveRow db (refreshTokenHash t) now = some stored →
      AuthService.refreshToken db t (some secret) now payloadRand newRowId
        .noFault = (.ok pair, db1) →
      ({ stored with revokedAt := some now } : RefreshTokenRow) ∈
        db1.refreshTokens) := by
  constructor
  · intro hfind
    exact refreshToken_error_of_find_none db t secret now payloadRand newRowId
      ht hfind
  · intro stored pair db1 hfind hok
    obtain ⟨_, _, stored', hfind', hra⟩ :=
      refreshToken_ok_inv db t secret now payloadRand newRowId pair db1 hok
    rw [hfind] at hfind'
    have hst : stored' = stored := (Option.some.injEq _ _ ▸ hfind').symm
    subst hst
    obtain ⟨newRow, hdb1, _⟩ :=
      refreshAfterFind_ok_state db stored' secret now payloadRand newRowId pair
        db1 hra
    rw [hdb1, List.mem_append]
    left
    simp only [revokeRowById, List.mem_map]
    refine ⟨stored', List.mem_of_find?_eq_some hfind, by simp⟩

/-- C1 amended witness: both directions at concrete stores — the failure
direction on the empty store and the revocation direction on a one-row
store with its concrete successful outcome. -/
theorem C1_amended_refresh_revoke_is_find_then_update_witness :
    (let tA : RefreshJwt :=
      { userId := "u1", payload := "p0", type := "refresh",
        exp := 9000, iat := 0, secret := "sec" }
     let row0 : RefreshTokenRow :=
      { id := "r1", userId := "u1", tokenHash := refreshTokenHash tA,
        expiresAt := 9000, createdAt := 0, revokedAt := none }
     let db0 : DB := { users := [], refreshTokens := [row0] }
     AuthService.refreshToken { users := [], refreshTokens := [] } tA
       (some "sec") 100 "pA" "rA" .noFault =
       (.error (.auth (invalidRefreshTokenError
         "Refresh token is invalid or expired")),
        { users := [], refreshTokens := [] }) ∧
     ({ row0 with revokedAt := some 100 } : RefreshTokenRow) ∈
       ((AuthService.refreshToken db0 tA (some "sec") 100 "pA" "rA"
         .noFault).2).refreshTokens) :=
  ⟨(C1_amended_refresh_revoke_is_find_then_update
      { users := [], refreshTokens := [] }
      { userId := "u1", payload := "p0", type := "refresh",
        exp := 9000, iat := 0, secret := "sec" }
      "sec" 100 "pA" "rA" (by decide) rfl).1 (by decide),
   (C1_amended_refresh_revoke_is_find_then_update
      { users := [], refreshTokens :=
        [{ id := "r1", userId := "u1",
           tokenHash := refreshTokenHash
             { userId := "u1", payload := "p0", type := "refresh",
               exp := 9000, iat := 0, secret := "sec" },
           expiresAt := 9000, createdAt := 0, revokedAt := none }] }
      { userId := "u1", payload := "p0", type := "refresh",
        exp := 9000, iat := 0, secret := "sec" }
      "sec" 100 "pA" "rA" (by decide) rfl).2
     { id := "r1", userId := "u1",
       tokenHash := refreshTokenHash
         { userId := "u1", payload := "p0", type := "refresh",
           exp := 9000, iat := 0, secret := "sec" },
       expiresAt := 9000, createdAt := 0, revokedAt := none }
     { access_token := { userId := "u1", exp := 100 + 60 * 60, secret := "sec" },
       refresh_token :=
         { userId := "u1", payload := "pA", type := "refresh",
           exp := 100 + 30 * 24 * 60 * 60, iat := 100, secret := "sec" },
       expires_in := 3600, token_type := "Bearer" }
     _ (by decide) rfl⟩

/-- C7 counterexample: when the `users` insert fails during `register`,
the `catch` block logs and rethrows the *raw* store error — the caller
receives the untyped exception, not one of the typed error kinds. -/
theorem C7_counterexample_register_propagates_raw_error :
    (AuthService.register { users := [], refreshTokens := [] }
       { email := "a@x.com", password := "pw", firstName := "A", lastName := "B" }
       (some "sec") 0 "salt" "u1" "p" "r1" .usersInsert).1 =
      .error (.raw "users insert failed") := rfl

/-- C7 as amended: error folding is partial, not total.  `refreshToken`
(once the secret is configured) and `logout` fold every underlying store
failure into an `InvalidRefreshTokenError`-kind error, but `register`
rethrows the raw store error unchanged (its `catch` only logs) and
`login`, which has no `try/catch`, propagates the raw store error. -/
theorem C7_amended_error_folding_not_total :
    (∀ (db : DB) (t : RefreshJwt) (secret : String) (now : Nat)
        (payloadRand newRowId : String) (fault : StoreFault) (e : Thrown),
        (AuthService.refreshToken db t (some secret) now payloadRand newRowId
          fault).1 = .error e →
        ∃ a : AuthErr, e = .auth a ∧ a.kind = .invalidRefreshToken) ∧
    (∀ (db : DB) (s : String) (now : Nat) (fault : StoreFault) (e : Thrown),
        (AuthService.logout db s now fault).1 = .error e →
        ∃ a : AuthErr, e = .auth a ∧ a.kind = .invalidRefreshToken) ∧
    (∀ (db : DB) (input : AuthService.RegisterInput)
        (jwtSecret? : Option String) (now : Nat)
        (salt newUserId payloadRand newRowId : String),
        db.users.find? (fun u => u.email == input.email) = none →
        (AuthService.register db input jwtSecret? now salt newUserId payloadRand
          newRowId .usersInsert).1 = .error (.raw "users insert failed")) ∧
    (∀ (db : DB) (input : AuthService.LoginInput) (jwtSecret? : Option String)
        (now : Nat) (dummySalt payloadRand newRowId : String),
        (AuthService.login db input jwtSecret? now dummySalt payloadRand
          newRowId .usersFindFirst).result = .error (.raw "users query failed")) := by
  refine ⟨?_, ?_, ?_, ?_⟩
  · intro db t secret now pr rid fault e h
    exact foldToInvalidRefreshRes_error_inv _ _ e h
  · intro db s now fault e h
    exact foldToInvalidRefreshRes_error_inv _ _ e h
  · intro db input js now salt uid pr rid hfind
    simp [AuthService.register, hfind]
  · intro db input js now ds pr rid
    simp [AuthService.login]

/-- C7 amended witness: the folding parts at a concrete failing refresh
and logout, and the propagation parts at concrete register and login
calls with an injected store failure. -/
theorem C7_amended_error_folding_not_total_witness :
    ((∃ a : AuthErr,
        (.auth (invalidRefreshTokenError "Refresh token is invalid or expired")
          : Thrown) = .auth a ∧ a.kind = .invalidRefreshToken) ∧
     (∃ a : AuthErr,
        (.auth (invalidRefreshTokenError "Token is invalid or already expired")
          : Thrown) = .auth a ∧ a.kind = .invalidRefreshToken) ∧
     (AuthService.register { users := [], refreshTokens := [] }
        { email := "b@x.com", password := "pw", firstName := "A", lastName := "B" }
        (some "sec") 0 "salt" "u1" "p" "r1" .usersInsert).1 =
        .error (.raw "users insert failed") ∧
     (AuthService.login { users := [], refreshTokens := [] }
        { email := "b@x.com", password := "pw" }
        (some "sec") 0 "ds" "p" "r1" .usersFindFirst).result =
        .error (.raw "users query failed")) :=
  ⟨C7_amended_error_folding_not_total.1
     { users := [], refreshTokens := [] }
     { userId := "u1", payload := "p0", type := "refresh",
       exp := 9000, iat := 0, secret := "sec" }
     "sec" 0 "p" "r1" .noFault _ rfl,
   C7_amended_error_folding_not_total.2.1
     { users := [], refreshTokens := [] } "x" 0 .noFault _ rfl,
   C7_amended_error_folding_not_total.2.2.1 _ _ _ _ _ _ _ _ (by decide),
   C7_amended_error_folding_not_total.2.2.2 _ _ _ _ _ _ _⟩

/-- C10: `refreshToken` is not atomic when issuing the successor fails
after the consumed row was revoked.  If the JWT checks pass, the
`findFirst` returns `stored`, the revoke step runs, and `generateTokens`
then fails (for example the successor insert), the caller receives the
generic `InvalidRefreshTokenError` — not an internal error — while the
final store keeps the consumed row revoked (no rollback) and contains no
successor row: the caller loses a valid token without a replacement. -/
theorem C10_refresh_not_atomic_on_issue_failure (db : DB) (t : RefreshJwt)
    (secret : String) (now : Nat) (payloadRand newRowId : String)
    (fault : StoreFault) (stored : RefreshTokenRow) (e : Thrown) (db2 : DB)
    (hj : jwtVerifyOk t secret now = true) (ht : t.type = "refresh")
    (hf1 : ¬ fault = .tokensFindFirst) (hf2 : ¬ fault = .tokensUpdate)
    (hfind : findActiveRow db (refreshTokenHash t) now = some stored)
    (hgen : generateTokens (revokeRowById db stored.id now) stored.userId
      (some secret) now payloadRand newRowId fault = (.error e, db2)) :
    AuthService.refreshToken db t (some secret) now payloadRand newRowId fault =
      (.error (.auth (invalidRefreshTokenError
        "Refresh token is invalid or expired")),
       revokeRowById db stored.id now) ∧
    ({ stored with revokedAt := some now } : RefreshTokenRow) ∈
      (revokeRowById db stored.id now).refreshTokens ∧
    (revokeRowById db stored.id now).refreshTokens.length =
      db.refreshTokens.length := by
  obtain ⟨⟨s, hs⟩, hdb2⟩ :=
    generateTokens_error_raw _ _ _ _ _ _ _ _ _ hgen
  subst hs
  subst hdb2
  refine ⟨?_, ?_, ?_⟩
  · have hb1 : (fault == StoreFault.tokensFindFirst) = false := by
      simpa using hf1
    have hbody : AuthService.refreshToken db t (some secret) now payloadRand
        newRowId fault =
        foldToInvalidRefresh "Refresh token is invalid or expired"
          (refreshAfterFind db stored secret now payloadRand newRowId fault) := by
      simp [AuthService.refreshToken, hj, ht, hb1, hfind]
    rw [hbody]
    have hraf : refreshAfterFind db stored secret now payloadRand newRowId
        fault = (.error (.raw s), revokeRowById db stored.id now) := by
      simp only [refreshAfterFind]
      rw [if_neg (by simpa using hf2)]
      exact hgen
    rw [hraf]
    simp [foldToInvalidRefresh, foldToInvalidRefreshRes]
  · have hmem := List.mem_of_find?_eq_some
      (show db.refreshTokens.find? (fun r =>
        r.tokenHash == refreshTokenHash t && r.revokedAt == none &&
          decide (now ≤ r.expiresAt)) = some stored from hfind)
    simp only [revokeRowById, List.mem_map]
    exact ⟨stored, hmem, by simp⟩
  · simp [revokeRowById]

/-- C10 witness: a concrete refresh whose successor insert fails — the
store keeps the consumed row revoked and the caller gets the generic
error. -/
theorem C10_refresh_not_atomic_on_issue_failure_witness :
    (let tA : RefreshJwt :=
      { userId := "u1", payload := "p0", type := "refresh",
        exp := 9000, iat := 0, secret := "sec" }
     let row0 : RefreshTokenRow :=
      { id := "r1", userId := "u1", tokenHash := refreshTokenHash tA,
        expiresAt := 9000, createdAt := 0, revokedAt := none }
     let db0 : DB := { users := [], refreshTokens := [row0] }
     AuthService.refreshToken db0 tA (some "sec") 100 "p1" "r2" .tokensInsert =
       (.error (.auth (invalidRefreshTokenError
         "Refresh token is invalid or expired")),
        revokeRowById db0 row0.id 100) ∧
     ({ row0 with revokedAt := some 100 } : RefreshTokenRow) ∈
       (revokeRowById db0 row0.id 100).refreshTokens ∧
     (revokeRowById db0 row0.id 100).refreshTokens.length =
       db0.refreshTokens.length) :=
  C10_refresh_not_atomic_on_issue_failure
    { users := [], refreshTokens :=
      [{ id := "r1", userId := "u1",
         tokenHash := refreshTokenHash
           { userId := "u1", payload := "p0", type := "refresh",
             exp := 9000, iat := 0, secret := "sec" },
         expiresAt := 9000, createdAt := 0, revokedAt := none }] }
    { userId := "u1", payload := "p0", type := "refresh",
      exp := 9000, iat := 0, secret := "sec" }
    "sec" 100 "p1" "r2" .tokensInsert
    { id := "r1", userId := "u1",
      tokenHash := refreshTokenHash
        { userId := "u1", payload := "p0", type := "refresh",
          exp := 9000, iat := 0, secret := "sec" },
      expiresAt := 9000, createdAt := 0, revokedAt := none }
    (.raw "refresh_tokens insert failed") _
    (by decide) rfl (by decide) (by decide) (by decide) rfl
